import Mathlib

/-!
Verification development for the Cortex Agent chat application
(`streamlit.py`): a shallow embedding of the conversation-reconciler
logic (thread creation, turn running, event-stream parsing, message-id
reconciliation, audit logging) together with theorems settling the
specification claims.

Modelling conventions:
* Python values flowing through the reconciler are modelled by `Jv`
  (None, bool, int, str, list, dict).  JSON numbers are modelled as
  integers; the identifiers the app handles are integral.  Unicode
  digit classes beyond ASCII are out of the modelled scope.
* Python exceptions are modelled by `Except PyErr`; an uncaught
  exception propagates as `.error`.
* The remote gateway primitive `_snowflake.send_snow_api_request` is an
  external collaborator; a call outcome is passed in as a parameter:
  either `.ok resp` (a response dict) or `.error e` (a transport-level
  exception raised by the primitive).
* Audit rows (`log_api_call`) record the thread id, the coerced parent
  message id, the prompt and the coerced HTTP status; the two wall-clock
  timestamp columns are omitted (no claim mentions them).
-/

inductive PyErr where
  | attributeError
  | typeError
  | valueError
  | connectionError
  deriving DecidableEq, Repr

/-- Python/JSON values: `None`, `bool`, `int`, `str`, `list`, `dict`. -/
inductive Jv where
  | null
  | bool (b : Bool)
  | int (n : Int)
  | str (s : String)
  | list (xs : List Jv)
  | dict (kvs : List (String × Jv))

/-- Association-list lookup with last-binding-wins semantics (matching
`json.loads`, where a duplicated key keeps the last value). -/
def dlookup : List (String × Jv) → String → Option Jv
  | [], _ => none
  | (k', v) :: rest, k =>
    match dlookup rest k with
    | some r => some r
    | none => if k' = k then some v else none

/-- Python truthiness (`bool(x)`). -/
def pyTruthy : Jv → Bool
  | .null => false
  | .bool b => b
  | .int n => decide (n ≠ 0)
  | .str s => decide (s ≠ "")
  | .list xs => !xs.isEmpty
  | .dict kvs => !kvs.isEmpty

/-- Python `x or y`. -/
def pyOrJ (a b : Jv) : Jv := if pyTruthy a then a else b

/-- Python `d.get(k, default)`: `AttributeError` when the receiver is
not a dict. -/
def pyGetD : Jv → String → Jv → Except PyErr Jv
  | .dict kvs, k, d => .ok ((dlookup kvs k).getD d)
  | _, _, _ => .error .attributeError

/-- Python `x == n` for an integer literal `n` (booleans compare as
0/1, other types compare unequal). -/
def pyEqInt : Jv → Int → Bool
  | .int m, n => decide (m = n)
  | .bool b, n => decide ((if b then (1 : Int) else 0) = n)
  | _, _ => false

/-- Value of a list of ASCII decimal digits. -/
def digitsToNat (l : List Char) : Nat :=
  l.foldl (fun a c => 10 * a + (c.toNat - 48)) 0

/-- Python `int(s)` on a string: optional surrounding whitespace,
optional sign, then decimal digits. -/
def parsePyInt (s : String) : Option Int :=
  let l := (s.data.dropWhile Char.isWhitespace).reverse
  let l := (l.dropWhile Char.isWhitespace).reverse
  match l with
  | '-' :: ds => if ds ≠ [] ∧ ds.all Char.isDigit then some (-(digitsToNat ds : Int)) else none
  | '+' :: ds => if ds ≠ [] ∧ ds.all Char.isDigit then some (digitsToNat ds : Int) else none
  | ds => if ds ≠ [] ∧ ds.all Char.isDigit then some (digitsToNat ds : Int) else none

/-- Python `int(x)`: ints pass through, bools become 0/1, strings are
parsed (`ValueError` on failure), anything else is a `TypeError`. -/
def pyInt : Jv → Except PyErr Int
  | .int n => .ok n
  | .bool b => .ok (if b then 1 else 0)
  | .str s =>
    match parsePyInt s with
    | some n => .ok n
    | none => .error .valueError
  | _ => .error .typeError

/-- Python `for x in v`: lists yield elements, strings yield one-char
strings, dicts yield their keys; other values raise `TypeError`. -/
def pyIter : Jv → Except PyErr (List Jv)
  | .list xs => .ok xs
  | .str s => .ok (s.data.map fun c => Jv.str (String.mk [c]))
  | .dict kvs => .ok (kvs.map fun kv => Jv.str kv.1)
  | _ => .error .typeError

/-- Python `a += v` on a string accumulator: `TypeError` unless `v` is
a string. -/
def pyStrAdd (a : String) : Jv → Except PyErr String
  | .str s => .ok (a ++ s)
  | _ => .error .typeError

/-! ### A small JSON parser, modelling `json.loads` on the response
body.  Numbers are restricted to (optionally signed) integers; a
fractional or exponent part is rejected. -/

def skipWs : List Char → List Char
  | [] => []
  | c :: cs => if c = ' ' ∨ c = '\n' ∨ c = '\t' ∨ c = '\r' then skipWs cs else c :: cs

def escChar (c : Char) : Option Char :=
  if c = '"' then some '"'
  else if c = '\\' then some '\\'
  else if c = '/' then some '/'
  else if c = 'n' then some '\n'
  else if c = 't' then some '\t'
  else if c = 'r' then some '\r'
  else if c = 'b' then some (Char.ofNat 8)
  else if c = 'f' then some (Char.ofNat 12)
  else none

/-- Body of a JSON string after the opening quote; returns the decoded
characters and the remainder after the closing quote. -/
def parseStrBody : List Char → Option (List Char × List Char)
  | [] => none
  | '\\' :: e :: cs =>
    match escChar e with
    | some d =>
      match parseStrBody cs with
      | some (l, r) => some (d :: l, r)
      | none => none
    | none => none
  | '"' :: cs => some ([], cs)
  | c :: cs =>
    match parseStrBody cs with
    | some (l, r) => some (c :: l, r)
    | none => none

def takeDigits : List Char → List Char × List Char
  | [] => ([], [])
  | c :: cs =>
    if c.isDigit then
      let (d, r) := takeDigits cs
      (c :: d, r)
    else ([], c :: cs)

/-- An unsigned JSON integer; floats (a following `.`/`e`/`E`) are
rejected. -/
def parseNatNum (cs : List Char) : Option (Nat × List Char) :=
  match takeDigits cs with
  | ([], _) => none
  | (ds, r) =>
    match r with
    | c :: _ => if c = '.' ∨ c = 'e' ∨ c = 'E' then none else some (digitsToNat ds, r)
    | [] => some (digitsToNat ds, [])

/-- Parser mode: a value, the elements of a non-empty array, or the
members of a non-empty object. -/
inductive PMode where
  | val
  | arr
  | obj

/-- Fuel-indexed JSON parser. -/
def parseJ (fuel : Nat) (m : PMode) (cs : List Char) : Option (Jv × List Char) :=
  match fuel with
  | 0 => none
  | fuel + 1 =>
    match m with
    | .val =>
      match skipWs cs with
      | [] => none
      | c :: rest =>
        if c = '"' then
          match parseStrBody rest with
          | some (l, r) => some (.str (String.mk l), r)
          | none => none
        else if c = '[' then
          match skipWs rest with
          | ']' :: r => some (.list [], r)
          | cs2 => parseJ fuel .arr cs2
        else if c.toNat = 123 then
          match skipWs rest with
          | c2 :: r2 => if c2.toNat = 125 then some (.dict [], r2) else parseJ fuel .obj (c2 :: r2)
          | [] => none
        else if c = 't' then
          match rest with
          | 'r' :: 'u' :: 'e' :: r => some (.bool true, r)
          | _ => none
        else if c = 'f' then
          match rest with
          | 'a' :: 'l' :: 's' :: 'e' :: r => some (.bool false, r)
          | _ => none
        else if c = 'n' then
          match rest with
          | 'u' :: 'l' :: 'l' :: r => some (.null, r)
          | _ => none
        else if c = '-' then
          match parseNatNum rest with
          | some (n, r) => some (.int (-(n : Int)), r)
          | none => none
        else
          match parseNatNum (c :: rest) with
          | some (n, r) => some (.int (n : Int), r)
          | none => none
    | .arr =>
      match parseJ fuel .val cs with
      | some (v, r) =>
        (match skipWs r with
         | ',' :: r2 =>
           (match parseJ fuel .arr r2 with
            | some (.list vs, r3) => some (.list (v :: vs), r3)
            | _ => none)
         | ']' :: r2 => some (.list [v], r2)
         | _ => none)
      | none => none
    | .obj =>
      match skipWs cs with
      | c :: rest =>
        if c = '"' then
          match parseStrBody rest with
          | some (k, r) =>
            (match skipWs r with
             | ':' :: r2 =>
               (match parseJ fuel .val r2 with
                | some (v, r3) =>
                  (match skipWs r3 with
                   | ',' :: r4 =>
                     (match parseJ fuel .obj r4 with
                      | some (.dict kvs, r5) => some (.dict ((String.mk k, v) :: kvs), r5)
                      | _ => none)
                   | c5 :: r5 => if c5.toNat = 125 then some (.dict [(String.mk k, v)], r5) else none
                   | [] => none)
                | none => none)
             | _ => none)
          | none => none
        else none
      | [] => none

/-- `json.loads` on a string: parse one value and require only
whitespace to remain. -/
def parseJsonStr (s : String) : Option Jv :=
  match parseJ (2 * s.data.length + 4) .val s.data with
  | some (v, r) =>
    match skipWs r with
    | [] => some v
    | _ => none
  | none => none

/-- `json.loads(x)`: strings are parsed (`ValueError` on malformed
input, as `json.JSONDecodeError` subclasses it); non-strings raise
`TypeError`. -/
def json_loads : Jv → Except PyErr Jv
  | .str s =>
    match parseJsonStr s with
    | some v => .ok v
    | none => .error .valueError
  | _ => .error .typeError

/-! ### Audit logging (`log_api_call`) -/

/-- One row of the `API_CALL_AUDIT` table (timestamps omitted). -/
structure AuditRecord where
  thread_id : Jv
  parent_message_id : Int
  prompt : String
  http_status : Int

/-- `log_api_call`: coerces `int(parent_message_id or 0)` and
`int(status_code or -1)` and appends one audit row; an exception from
`int()` propagates and no row is written. -/
def log_api_call (thread_id : Jv) (parent_message_id : Int) (prompt : String)
    (status_code : Jv) : Except PyErr AuditRecord :=
  match pyInt (pyOrJ (Jv.int parent_message_id) (Jv.int 0)) with
  | .error e => .error e
  | .ok pm =>
    match pyInt (pyOrJ status_code (Jv.int (-1))) with
    | .error e => .error e
    | .ok st => .ok ⟨thread_id, pm, prompt, st⟩

/-! ### Thread creation (`create_thread`) -/

/-- `resp.get("status", -1)` on the gateway response dict. -/
def resp_status (resp : List (String × Jv)) : Jv :=
  (dlookup resp "status").getD (Jv.int (-1))

/-- `resp.get("content", d) or d` on the gateway response dict. -/
def rawBody (resp : List (String × Jv)) (d : String) : Jv :=
  pyOrJ ((dlookup resp "content").getD (Jv.str d)) (Jv.str d)

/-- The `try: content = json.loads(resp.get("content","{}") or "{}");
thread_id = content.get("thread_id") except Exception: thread_id = None`
block of `create_thread`. -/
def parse_thread_id (resp : List (String × Jv)) : Jv :=
  match
    ((match json_loads (rawBody resp "\x7b\x7d") with
      | .error e => .error e
      | .ok content => pyGetD content "thread_id" Jv.null) : Except PyErr Jv) with
  | .ok v => v
  | .error _ => Jv.null

/-- `create_thread`: the gateway outcome is passed in as `g`.  Returns
the audit rows written and either the thread id (`Jv.null` on a failed
call, mirroring `return None`) or a propagated exception. -/
def create_thread (g : Except PyErr (List (String × Jv))) :
    List AuditRecord × Except PyErr Jv :=
  match g with
  | .error e => ([], .error e)
  | .ok resp =>
    match log_api_call (parse_thread_id resp) 0 "CREATE_THREAD" (resp_status resp) with
    | .error e => ([], .error e)
    | .ok rec =>
      if pyEqInt (resp_status resp) 200 && pyTruthy (parse_thread_id resp) then
        ([rec], .ok (parse_thread_id resp))
      else ([rec], .ok Jv.null)

/-! ### Event-stream parsing (`agent_run`)

The loop state is `(aggregated_text, last_sql, assistant_message_id)`;
`last_sql` and the message id are arbitrary Python values in the
source, so they stay `Jv`. -/

/-- One entry of `item["tool_results"]["content"]`: a `json`-typed
entry appends `j.get("text","")` and sets
`last_sql = j.get("sql", last_sql)`. -/
def processToolRes (acc : String × Jv) (res : Jv) : Except PyErr (String × Jv) :=
  match pyGetD res "type" Jv.null with
  | .error e => .error e
  | .ok t =>
    match t with
    | .str s =>
      if s = "json" then
        match pyGetD res "json" (Jv.dict []) with
        | .error e => .error e
        | .ok j0 =>
          let j := if pyTruthy j0 then j0 else Jv.dict []
          match pyGetD j "text" (Jv.str "") with
          | .error e => .error e
          | .ok txt =>
            match pyStrAdd acc.1 txt with
            | .error e => .error e
            | .ok agg =>
              match pyGetD j "sql" acc.2 with
              | .error e => .error e
              | .ok sq => .ok (agg, sq)
      else .ok acc
    | _ => .ok acc

def runToolResults (acc : String × Jv) : List Jv → Except PyErr (String × Jv)
  | [] => .ok acc
  | r :: rs =>
    match processToolRes acc r with
    | .error e => .error e
    | .ok acc' => runToolResults acc' rs

/-- One entry of `delta["content"]`: `text` items append their text,
`tool_results` items run their nested result entries. -/
def processItem (acc : String × Jv) (item : Jv) : Except PyErr (String × Jv) :=
  match pyGetD item "type" Jv.null with
  | .error e => .error e
  | .ok t =>
    match t with
    | .str s =>
      if s = "text" then
        match pyGetD item "text" (Jv.str "") with
        | .error e => .error e
        | .ok txt =>
          match pyStrAdd acc.1 txt with
          | .error e => .error e
          | .ok agg => .ok (agg, acc.2)
      else if s = "tool_results" then
        match pyGetD item "tool_results" (Jv.dict []) with
        | .error e => .error e
        | .ok tr =>
          match pyGetD tr "content" (Jv.list []) with
          | .error e => .error e
          | .ok contentv =>
            match pyIter contentv with
            | .error e => .error e
            | .ok results => runToolResults acc results
      else .ok acc
    | _ => .ok acc

def runItems (acc : String × Jv) : List Jv → Except PyErr (String × Jv)
  | [] => .ok acc
  | i :: is =>
    match processItem acc i with
    | .error e => .error e
    | .ok acc' => runItems acc' is

/-- The body of `for ev in events`: the `message.delta` branch updates
the text/sql accumulator, the `message.completed`/`message.created`/
`response.completed` branch overwrites the assistant message id when
the event data carries a non-`None` `message_id`. -/
def processEvent (st : String × Jv × Jv) (ev : Jv) : Except PyErr (String × Jv × Jv) :=
  match pyGetD ev "event" Jv.null with
  | .error e => .error e
  | .ok et =>
    match pyGetD ev "data" (Jv.dict []) with
    | .error e => .error e
    | .ok data =>
      match
        ((match et with
          | .str s =>
            if s = "message.delta" then
              match pyGetD data "delta" (Jv.dict []) with
              | .error e => .error e
              | .ok delta =>
                match pyGetD delta "content" (Jv.list []) with
                | .error e => .error e
                | .ok contentv =>
                  match pyIter contentv with
                  | .error e => .error e
                  | .ok items => runItems (st.1, st.2.1) items
            else .ok (st.1, st.2.1)
          | _ => .ok (st.1, st.2.1)) : Except PyErr (String × Jv)) with
      | .error e => .error e
      | .ok acc =>
        match
          ((match et with
            | .str s =>
              if s = "message.completed" ∨ s = "message.created" ∨ s = "response.completed" then
                match pyGetD data "message_id" Jv.null with
                | .error e => .error e
                | .ok mid => .ok (match mid with | .null => st.2.2 | _ => mid)
              else .ok st.2.2
            | _ => .ok st.2.2) : Except PyErr Jv) with
        | .error e => .error e
        | .ok amid => .ok (acc.1, acc.2, amid)

def runEvents (st : String × Jv × Jv) : List Jv → Except PyErr (String × Jv × Jv)
  | [] => .ok st
  | ev :: evs =>
    match processEvent st ev with
    | .error e => .error e
    | .ok st' => runEvents st' evs

/-- `agent_run`: the gateway outcome is passed in as `g`.  Returns the
audit rows written and either the `(aggregated_text, last_sql,
assistant_message_id)` triple or a propagated exception. -/
def agent_run (g : Except PyErr (List (String × Jv))) (prompt : String) (thread_id : Jv)
    (parent_message_id : Int) : List AuditRecord × Except PyErr (String × Jv × Jv) :=
  match g with
  | .error e => ([], .error e)
  | .ok resp =>
    match log_api_call thread_id parent_message_id prompt (resp_status resp) with
    | .error e => ([], .error e)
    | .ok rec =>
      if pyEqInt (resp_status resp) 200 then
        match json_loads (rawBody resp "[]") with
        | .error _ => ([rec], .ok ("", Jv.str "", Jv.int parent_message_id))
        | .ok events =>
          ([rec],
           match pyIter events with
           | .error e => .error e
           | .ok evs => runEvents ("", Jv.str "", Jv.int parent_message_id) evs)
      else ([rec], .ok ("", Jv.str "", Jv.int parent_message_id))

/-- An event kind the parser reacts to. -/
def knownKind : Jv → Bool
  | .str s =>
    decide (s = "message.delta") || decide (s = "message.completed") ||
    decide (s = "message.created") || decide (s = "response.completed")
  | _ => false

/-- Conservative test for "this event can overwrite the assistant
message id": a well-shaped completion-kind event whose data carries a
non-`None` `message_id`.  Shapes on which `processEvent` would raise
(non-dict event, completion kind with non-dict data) count as carriers
so that `carriesMid ev = false` certifies the id is left unchanged. -/
def carriesMid (ev : Jv) : Bool :=
  match ev with
  | .dict kvs =>
    match (dlookup kvs "event").getD Jv.null with
    | .str s =>
      if decide (s = "message.completed") || decide (s = "message.created") ||
          decide (s = "response.completed") then
        match (dlookup kvs "data").getD (Jv.dict []) with
        | .dict dkvs =>
          (match (dlookup dkvs "message_id").getD Jv.null with
           | .null => false
           | _ => true)
        | _ => true
      else false
    | _ => false
  | _ => true

/-! ### Resolving the final assistant message id

Mirrors
`int(assistant_message_id) if isinstance(assistant_message_id, (int, float, str))
and str(assistant_message_id).isdigit() else provisional_user_id + 1`.
Floats are outside the modelled value space (`Jv` numbers are
integers); note `bool` is a subclass of `int` in Python, so it passes
the `isinstance` test but `str(True)`/`str(False)` never look like
digits. -/

/-- Decimal digits of `n`, most significant first (fuel-indexed so it
reduces definitionally). -/
def natReprAux : Nat → Nat → List Char
  | 0, _ => []
  | fuel + 1, n =>
    if n < 10 then [Nat.digitChar n]
    else natReprAux fuel (n / 10) ++ [Nat.digitChar (n % 10)]

/-- `str(n)` for a natural number. -/
def natRepr (n : Nat) : String := String.mk (natReprAux (n + 1) n)

/-- `str(n)` for a Python int. -/
def intRepr (n : Int) : String :=
  if n < 0 then "-" ++ natRepr n.natAbs else natRepr n.toNat

/-- `isinstance(x, (int, float, str))` over the modelled values
(`bool` is an `int` subclass in Python). -/
def isNumOrStr : Jv → Bool
  | .int _ => true
  | .bool _ => true
  | .str _ => true
  | _ => false

/-- `str(x)` for the values passing `isNumOrStr` (elsewhere unused). -/
def pyStrRepr : Jv → String
  | .int n => intRepr n
  | .bool b => if b then "True" else "False"
  | .str s => s
  | _ => ""

/-- `s.isdigit()` over ASCII: non-empty and all decimal digits. -/
def pyIsDigitStr (s : String) : Bool :=
  !s.data.isEmpty && s.data.all Char.isDigit

/-- `int(x)` in the digit-guarded branch (total there: the guard
guarantees the conversion succeeds). -/
def pyIntOfDigits : Jv → Int
  | .int n => n
  | .str s => (digitsToNat s.data : Int)
  | .bool b => if b then 1 else 0
  | _ => 0

/-- The `final_assistant_id` expression of the turn handler. -/
def final_assistant_id (assistant_message_id : Jv) (provisional_user_id : Int) : Int :=
  if isNumOrStr assistant_message_id && pyIsDigitStr (pyStrRepr assistant_message_id) then
    pyIntOfDigits assistant_message_id
  else provisional_user_id + 1

/-- Modelled from the spec: "a well-formed non-negative integer
(including when delivered as numeric-looking text)" — the value such a
`returnedId` denotes, `none` for every other value.  Stated from the
spec's words for comparison with `final_assistant_id`. -/
def specNonNegIntValue : Jv → Option Int
  | .int n => if 0 ≤ n then some n else none
  | .str s => if !s.data.isEmpty && s.data.all Char.isDigit then some (digitsToNat s.data : Int) else none
  | _ => none

/-! ### Restoring a thread's cursor

`load_messages` issues `SELECT ... ORDER BY MESSAGE_ID ASC, CREATED_AT
ASC`; the thread-switch branch then replays the rows and tracks the
highest non-`None` message id (starting from 0).  The store rows are
passed in as a list; the SQL ordering is modelled as sorting by the
same key. -/

/-- One row of the `AGENT_MESSAGES` table (a `NULL` id is `none`;
`created_at` is an abstract timestamp). -/
structure MsgRow where
  message_id : Option Int
  role : String
  content : String
  created_at : Nat

/-- `(MESSAGE_ID ASC, CREATED_AT ASC)` comparison; `NULL` ids sort
last (Snowflake default for ascending order). -/
def rowLeB (a b : MsgRow) : Bool :=
  match a.message_id, b.message_id with
  | some x, some y => decide (x < y) || (decide (x = y) && decide (a.created_at ≤ b.created_at))
  | some _, none => true
  | none, some _ => false
  | none, none => decide (a.created_at ≤ b.created_at)

def rowLe (a b : MsgRow) : Prop := rowLeB a b = true

instance : DecidableRel rowLe := fun a b => inferInstanceAs (Decidable (rowLeB a b = true))

instance : IsTotal MsgRow rowLe := by
  constructor
  intro a b
  unfold rowLe rowLeB
  rcases a.message_id with _ | x <;> rcases b.message_id with _ | y <;>
    simp [Bool.or_eq_true, decide_eq_true_eq] <;> omega

instance : IsTrans MsgRow rowLe := by
  constructor
  intro a b c
  unfold rowLe rowLeB
  rcases a.message_id with _ | x <;> rcases b.message_id with _ | y <;>
    rcases c.message_id with _ | z <;>
    simp [Bool.or_eq_true, decide_eq_true_eq] <;> omega

/-- `load_messages`: the thread's rows ordered by message id
ascending, creation time ascending. -/
def load_messages (rows : List MsgRow) : List MsgRow :=
  List.insertionSort rowLe rows

/-- The thread-switch branch: replay `(role, content)` pairs in loaded
order and resume the parent message id as the highest id seen
(`0` when there is none). -/
def restore_cursor (rows : List MsgRow) : List (String × String) × Int :=
  let hist := load_messages rows
  (hist.map fun r => (r.role, r.content),
   hist.foldl (fun acc r => match r.message_id with | some n => max acc n | none => acc) 0)

/-- The §8 example event stream of the specification, as the raw
response body text. -/
def c7_content : String :=
  "[\x7b\"event\":\"message.delta\",\"data\":\x7b\"delta\":\x7b\"content\":[\x7b\"type\":\"text\",\"text\":\"Hel\"\x7d]\x7d\x7d\x7d, \x7b\"event\":\"message.delta\",\"data\":\x7b\"delta\":\x7b\"content\":[\x7b\"type\":\"text\",\"text\":\"lo\"\x7d]\x7d\x7d\x7d, \x7b\"event\":\"message.completed\",\"data\":\x7b\"message_id\":42\x7d\x7d]"

/-! ### Helper lemmas -/

theorem pyOrJ_int_zero (p : Int) : pyOrJ (Jv.int p) (Jv.int 0) = Jv.int p := by
  unfold pyOrJ pyTruthy
  by_cases hp : p = 0 <;> simp [hp]

theorem pyOrJ_int_status (n : Int) :
    pyOrJ (Jv.int n) (Jv.int (-1)) = Jv.int (if n = 0 then -1 else n) := by
  unfold pyOrJ pyTruthy
  by_cases hn : n = 0 <;> simp [hn]

/-- `log_api_call` on an integer status: the parent id is stored
unchanged and a zero status is coerced to the sentinel `-1`. -/
theorem log_api_call_int (tid : Jv) (p : Int) (pr : String) (n : Int) :
    log_api_call tid p pr (Jv.int n) = .ok ⟨tid, p, pr, if n = 0 then -1 else n⟩ := by
  simp [log_api_call, pyOrJ_int_zero, pyOrJ_int_status, pyInt]

/-- A response whose status key matches the gateway contract (an
integer, or absent) yields an integer `resp_status`. -/
theorem resp_status_int (resp : List (String × Jv))
    (hst : dlookup resp "status" = none ∨ ∃ n : Int, dlookup resp "status" = some (Jv.int n)) :
    ∃ n : Int, resp_status resp = Jv.int n := by
  rcases hst with h | ⟨n, h⟩
  · exact ⟨-1, by simp [resp_status, h]⟩
  · exact ⟨n, by simp [resp_status, h]⟩

theorem pyGetD_dict (kvs : List (String × Jv)) (k : String) (d : Jv) :
    pyGetD (Jv.dict kvs) k d = .ok ((dlookup kvs k).getD d) := rfl

/-- A step of the event loop leaves the assistant message id unchanged
when the event is certified not to carry one. -/
theorem processEvent_amid (st : String × Jv × Jv) (ev : Jv) (out : String × Jv × Jv)
    (hev : carriesMid ev = false) (h : processEvent st ev = .ok out) : out.2.2 = st.2.2 := by
  cases ev with
  | dict kvs =>
    simp only [processEvent, pyGetD_dict] at h
    simp only [carriesMid] at hev
    cases het : (dlookup kvs "event").getD Jv.null with
    | str s =>
      rw [het] at h hev
      dsimp only at h hev
      by_cases hq : s = "message.completed" ∨ s = "message.created" ∨ s = "response.completed"
      · have hqd : (decide (s = "message.completed") || decide (s = "message.created") ||
            decide (s = "response.completed")) = true := by
          rcases hq with h1 | h1 | h1 <;> simp [h1]
        rw [if_pos hqd] at hev
        have hnd : ¬ s = "message.delta" := by
          rcases hq with h1 | h1 | h1 <;> subst h1 <;> simp
        rw [if_neg hnd, if_pos hq] at h
        dsimp only at h
        cases hdata : (dlookup kvs "data").getD (Jv.dict []) with
        | dict dkvs =>
          rw [hdata] at h hev
          dsimp only at h hev
          simp only [pyGetD_dict] at h
          cases hmid : (dlookup dkvs "message_id").getD Jv.null with
          | null => rw [hmid] at h; dsimp only at h; cases h; rfl
          | bool b => rw [hmid] at hev; simp at hev
          | int n => rw [hmid] at hev; simp at hev
          | str s2 => rw [hmid] at hev; simp at hev
          | list xs => rw [hmid] at hev; simp at hev
          | dict d2 => rw [hmid] at hev; simp at hev
        | null => rw [hdata] at hev; simp at hev
        | bool b => rw [hdata] at hev; simp at hev
        | int n => rw [hdata] at hev; simp at hev
        | str s2 => rw [hdata] at hev; simp at hev
        | list xs => rw [hdata] at hev; simp at hev
      · rw [if_neg hq] at h
        dsimp only at h
        by_cases hd : s = "message.delta"
        · rw [if_pos hd] at h
          split at h
          · cases h
          · cases h; rfl
        · rw [if_neg hd] at h
          dsimp only at h
          cases h
          rfl
    | null => rw [het] at h; dsimp only at h; cases h; rfl
    | bool b => rw [het] at h; dsimp only at h; cases h; rfl
    | int n => rw [het] at h; dsimp only at h; cases h; rfl
    | list xs => rw [het] at h; dsimp only at h; cases h; rfl
    | dict d => rw [het] at h; dsimp only at h; cases h; rfl
  | null => cases hev
  | bool b => cases hev
  | int n => cases hev
  | str s => cases hev
  | list xs => cases hev

/-- The event loop leaves the assistant message id unchanged when no
event carries one. -/
theorem runEvents_amid (evs : List Jv) : ∀ st out : String × Jv × Jv,
    (∀ ev ∈ evs, carriesMid ev = false) → runEvents st evs = .ok out → out.2.2 = st.2.2 := by
  induction evs with
  | nil =>
    intro st out _ h
    simp only [runEvents] at h
    cases h
    rfl
  | cons ev evs ih =>
    intro st out hall h
    simp only [runEvents] at h
    cases hpe : processEvent st ev with
    | error e => rw [hpe] at h; cases h
    | ok st2 =>
      rw [hpe] at h
      exact (ih st2 out (fun e he => hall e (by simp [he])) h).trans
        (processEvent_amid st ev st2 (hall ev (by simp)) hpe)

theorem digitChar_isDigit (d : Nat) (hd : d < 10) : (Nat.digitChar d).isDigit = true := by
  interval_cases d <;> rfl

theorem natReprAux_digits : ∀ fuel n : Nat, n < fuel →
    natReprAux fuel n ≠ [] ∧ ∀ c ∈ natReprAux fuel n, c.isDigit = true := by
  intro fuel
  induction fuel with
  | zero => intro n h; omega
  | succ fuel ih =>
    intro n h
    by_cases h10 : n < 10
    · refine ⟨by simp [natReprAux, h10], ?_⟩
      intro c hc
      simp [natReprAux, h10] at hc
      subst hc
      exact digitChar_isDigit n h10
    · have hdiv : n / 10 < fuel := by
        have h1 : n / 10 < n := Nat.div_lt_self (by omega) (by omega)
        omega
      obtain ⟨h1, h2⟩ := ih (n / 10) hdiv
      refine ⟨by simp [natReprAux, h10], ?_⟩
      intro c hc
      simp [natReprAux, h10] at hc
      rcases hc with hc | hc
      · exact h2 c hc
      · subst hc
        exact digitChar_isDigit _ (Nat.mod_lt _ (by omega))

theorem pyIsDigit_natRepr (n : Nat) : pyIsDigitStr (natRepr n) = true := by
  obtain ⟨h1, h2⟩ := natReprAux_digits (n + 1) n (by omega)
  simp only [pyIsDigitStr, natRepr, Bool.and_eq_true, Bool.not_eq_true', List.isEmpty_eq_false,
    List.all_eq_true]
  exact ⟨h1, fun c hc => h2 c hc⟩

theorem pyIsDigit_intRepr_neg (n : Int) (hn : n < 0) : pyIsDigitStr (intRepr n) = false := by
  simp only [intRepr, if_pos hn, pyIsDigitStr]
  have hd : ("-" ++ natRepr n.natAbs).data = '-' :: (natRepr n.natAbs).data := by
    simp [String.data_append]
  simp [hd]

theorem restore_fold_filterMap : ∀ (l : List MsgRow) (a : Int),
    l.foldl (fun acc r => match r.message_id with | some n => max acc n | none => acc) a
      = (l.filterMap MsgRow.message_id).foldl max a := by
  intro l
  induction l with
  | nil => intro a; rfl
  | cons r rs ih =>
    intro a
    cases hr : r.message_id with
    | none => simp [List.filterMap_cons, hr, ih]
    | some n => simp [List.filterMap_cons, hr, ih]

theorem foldl_max_nonneg (l : List Int) (h : ∀ x ∈ l, 0 ≤ x) :
    l.foldl max 0 = (l.max?).getD 0 := by
  cases l with
  | nil => rfl
  | cons x xs =>
    have hx : max 0 x = x := max_eq_right (h x (by simp))
    show List.foldl max (max 0 x) xs = (some (xs.foldl max x)).getD 0
    rw [hx]
    rfl

/-- Claim C1, counterexample: a successful `agent_run` call (status
200, parseable event-sequence body `"[]"`) returns an assistant
message identifier equal to — not strictly greater than — the supplied
parent identifier 5. -/
theorem C1_strict_increase_counterexample :
    agent_run (.ok [("status", Jv.int 200), ("content", Jv.str "[]")]) "q" (Jv.str "T") 5
      = ([⟨Jv.str "T", 5, "q", 200⟩], .ok ("", Jv.str "", Jv.int 5)) ∧ ¬ (5 : Int) < 5 :=
  ⟨rfl, by omega⟩

/-- Claim C1 (amended): for a successful `agent_run` call, the
resolved assistant message identifier is the last identifier carried
by a `message.completed`/`message.created`/`response.completed`
event; when no event carries one, it equals the supplied parent
identifier unchanged, so it is not in general strictly greater than
the parent. -/
theorem C1_resolved_id_no_progress (resp : List (String × Jv)) (prompt : String) (tid : Jv)
    (parent : Int) (events : Jv) (evs : List Jv) (l : List AuditRecord) (t : String) (sq m : Jv)
    (h200 : dlookup resp "status" = some (Jv.int 200))
    (hparse : json_loads (rawBody resp "[]") = .ok events)
    (hiter : pyIter events = .ok evs)
    (hnomid : ∀ ev ∈ evs, carriesMid ev = false)
    (hrun : agent_run (.ok resp) prompt tid parent = (l, .ok (t, sq, m))) :
    m = Jv.int parent := by
  have hn : resp_status resp = Jv.int 200 := by simp [resp_status, h200]
  simp only [agent_run, hn, log_api_call_int, hparse, hiter, pyEqInt] at hrun
  norm_num at hrun
  exact runEvents_amid evs _ _ hnomid hrun.2

/-- Witness for C1: a concrete successful call with no id-carrying
events resolves to the parent identifier 7. -/
theorem C1_resolved_id_no_progress_witness :
    agent_run (.ok [("status", Jv.int 200), ("content", Jv.str "[]")]) "w" (Jv.str "T") 7
      = ([⟨Jv.str "T", 7, "w", 200⟩], .ok ("", Jv.str "", Jv.int 7)) ∧ Jv.int 7 = Jv.int 7 :=
  ⟨rfl, C1_resolved_id_no_progress [("status", Jv.int 200), ("content", Jv.str "[]")] "w"
    (Jv.str "T") 7 (Jv.list []) [] [⟨Jv.str "T", 7, "w", 200⟩] "" (Jv.str "") (Jv.int 7)
    rfl rfl rfl (by simp) rfl⟩

/-- Claim C2, counterexample: when the gateway primitive raises a
transport-level exception, `create_thread` writes zero audit records
(the exception propagates before `log_api_call` runs), so "exactly one
audit record regardless of ... transport failure" fails. -/
theorem C2_transport_counterexample :
    create_thread (.error PyErr.connectionError) = ([], .error PyErr.connectionError) ∧
      ([] : List AuditRecord).length ≠ 1 :=
  ⟨rfl, by simp⟩

/-- Claim C2 (amended): every invocation of `create_thread` in which
the gateway primitive returns a response dict (success, any non-200
status, or a missing status recorded as the sentinel -1) writes
exactly one audit record, carrying parent message identifier 0 and the
fixed `CREATE_THREAD` sentinel prompt; when the primitive raises, the
exception propagates and no record is written. -/
theorem C2_audit_exactly_one (resp : List (String × Jv))
    (hst : dlookup resp "status" = none ∨ ∃ n : Int, dlookup resp "status" = some (Jv.int n)) :
    (create_thread (.ok resp)).1.length = 1 ∧
      ∀ r ∈ (create_thread (.ok resp)).1,
        r.parent_message_id = 0 ∧ r.prompt = "CREATE_THREAD" := by
  obtain ⟨n, hn⟩ := resp_status_int resp hst
  simp only [create_thread, hn, log_api_call_int]
  cases hb : (pyEqInt (Jv.int n) 200 && pyTruthy (parse_thread_id resp)) <;> simp [hb]

/-- Witness for C2: a concrete 500 response yields exactly one audit
record with parent 0 and the sentinel prompt. -/
theorem C2_audit_exactly_one_witness :
    (create_thread (.ok [("status", Jv.int 500)])).1.length = 1 ∧
      ∀ r ∈ (create_thread (.ok [("status", Jv.int 500)])).1,
        r.parent_message_id = 0 ∧ r.prompt = "CREATE_THREAD" :=
  C2_audit_exactly_one _ (Or.inr ⟨500, rfl⟩)

/-- Claim C3, counterexample: a 200 response whose body is valid JSON
of unexpected shape (`"[1]"`: a list whose element is not an object)
makes `agent_run` raise an uncaught `AttributeError` instead of
returning the empty triple. -/
theorem C3_shape_counterexample :
    agent_run (.ok [("status", Jv.int 200), ("content", Jv.str "[1]")]) "q" (Jv.str "T") 0
      = ([⟨Jv.str "T", 0, "q", 200⟩], .error PyErr.attributeError) ∧
    (Except.error PyErr.attributeError : Except PyErr (String × Jv × Jv))
      ≠ .ok ("", Jv.str "", Jv.int 0) :=
  ⟨rfl, by simp⟩

/-- Claim C3 (amended): a 200 response whose body fails JSON parsing
is a recoverable failure — `agent_run` returns empty aggregated text,
empty generated query and the unchanged parent identifier without
raising; a body that parses to JSON of unexpected shape instead raises
an uncaught exception. -/
theorem C3_unparseable_recoverable (resp : List (String × Jv)) (prompt : String) (tid : Jv)
    (parent : Int)
    (h200 : dlookup resp "status" = some (Jv.int 200))
    (hbad : (json_loads (rawBody resp "[]")).isOk = false) :
    agent_run (.ok resp) prompt tid parent
      = ([⟨tid, parent, prompt, 200⟩], .ok ("", Jv.str "", Jv.int parent)) := by
  have hn : resp_status resp = Jv.int 200 := by simp [resp_status, h200]
  simp only [agent_run, hn, log_api_call_int]
  norm_num
  cases hj : json_loads (rawBody resp "[]") with
  | error e => simp
  | ok v => rw [hj] at hbad; simp [Except.isOk, Except.toBool] at hbad

/-- Witness for C3: a concrete 200 response with the non-JSON body
`"oops"` returns the empty triple with parent 3 unchanged. -/
theorem C3_unparseable_recoverable_witness :
    agent_run (.ok [("status", Jv.int 200), ("content", Jv.str "oops")]) "q" (Jv.str "T") 3
      = ([⟨Jv.str "T", 3, "q", 200⟩], .ok ("", Jv.str "", Jv.int 3)) :=
  C3_unparseable_recoverable _ _ _ _ rfl rfl

/-- Claim C4: an `agent_run` call that fails with a non-200 status or
a non-parseable body returns exactly (empty aggregated text, empty
generated query, the supplied parent identifier unchanged) — the
caller's cursor is idempotent under repeated failures. -/
theorem C4_failure_unchanged (resp : List (String × Jv)) (prompt : String) (tid : Jv)
    (parent : Int)
    (hst : dlookup resp "status" = none ∨ ∃ n : Int, dlookup resp "status" = some (Jv.int n))
    (hfail : pyEqInt (resp_status resp) 200 = false ∨ (json_loads (rawBody resp "[]")).isOk = false) :
    (agent_run (.ok resp) prompt tid parent).2 = .ok ("", Jv.str "", Jv.int parent) := by
  obtain ⟨n, hn⟩ := resp_status_int resp hst
  simp only [agent_run, hn, log_api_call_int]
  rcases hfail with hf | hf
  · rw [hn] at hf
    simp [hf]
  · by_cases hq : pyEqInt (Jv.int n) 200 = true
    · simp only [hq, if_true]
      cases hj : json_loads (rawBody resp "[]") with
      | error e => simp
      | ok v => rw [hj] at hf; simp [Except.isOk, Except.toBool] at hf
    · simp [Bool.not_eq_true] at hq
      simp [hq]

/-- Witness for C4: a concrete 503 response leaves the parent
identifier 9 unchanged with empty outputs. -/
theorem C4_failure_unchanged_witness :
    (agent_run (.ok [("status", Jv.int 503)]) "q" (Jv.str "T") 9).2
      = .ok ("", Jv.str "", Jv.int 9) :=
  C4_failure_unchanged _ _ _ _ (Or.inr ⟨503, rfl⟩) (Or.inl rfl)

/-- Claim C5: a `tool_results` entry of kind `json` contributes its
`text` field to the aggregated output and updates the generated-query
value with literal last-write-wins semantics — a present `sql` key
(even mapped to the empty string) overwrites the previous value, an
absent `sql` key keeps it. -/
theorem C5_toolresult_lastwrite (agg : String) (lastSql : Jv) (rkvs jkvs : List (String × Jv))
    (txt : String)
    (hT : dlookup rkvs "type" = some (Jv.str "json"))
    (hJ : dlookup rkvs "json" = some (Jv.dict jkvs))
    (hTxt : (dlookup jkvs "text").getD (Jv.str "") = Jv.str txt) :
    processToolRes (agg, lastSql) (Jv.dict rkvs)
      = .ok (agg ++ txt, (dlookup jkvs "sql").getD lastSql) := by
  have hjj : (if pyTruthy (Jv.dict jkvs) then Jv.dict jkvs else Jv.dict []) = Jv.dict jkvs := by
    cases jkvs <;> simp [pyTruthy]
  simp [processToolRes, pyGetD, hT, hJ, hjj, hTxt, pyStrAdd]

/-- Witness for C5: an entry with text `"X"` and the empty-string
`sql` overwrites the previously set non-empty query `"SELECT 1"`. -/
theorem C5_toolresult_lastwrite_witness :
    processToolRes ("A", Jv.str "SELECT 1")
      (Jv.dict [("type", Jv.str "json"),
        ("json", Jv.dict [("text", Jv.str "X"), ("sql", Jv.str "")])])
      = .ok ("AX", Jv.str "") :=
  (C5_toolresult_lastwrite "A" (Jv.str "SELECT 1")
    [("type", Jv.str "json"), ("json", Jv.dict [("text", Jv.str "X"), ("sql", Jv.str "")])]
    [("text", Jv.str "X"), ("sql", Jv.str "")] "X" rfl rfl rfl).trans rfl

/-- Claim C6: `final_assistant_id` returns the returned id whenever it
is a well-formed non-negative integer (delivered as a number or as
numeric text) and `provisional + 1` in every other case (None,
negatives, non-numeric text, booleans, lists, dicts). -/
theorem C6_resolve_final_assistant_id (v : Jv) (p : Int) :
    final_assistant_id v p = (specNonNegIntValue v).getD (p + 1) := by
  cases v with
  | null => rfl
  | list xs => rfl
  | dict kvs => rfl
  | bool b => cases b <;> rfl
  | str s =>
    by_cases hc : (!s.data.isEmpty && s.data.all Char.isDigit) = true <;>
      simp [final_assistant_id, isNumOrStr, pyStrRepr, pyIsDigitStr, specNonNegIntValue,
        pyIntOfDigits, hc]
  | int n =>
    by_cases hn : 0 ≤ n
    · have h0 : intRepr n = natRepr n.toNat := by
        rw [intRepr, if_neg (by omega)]
      have h1 : pyIsDigitStr (intRepr n) = true := by
        rw [h0]; exact pyIsDigit_natRepr _
      simp [final_assistant_id, isNumOrStr, pyStrRepr, h1, pyIntOfDigits, specNonNegIntValue, hn]
    · have h1 : pyIsDigitStr (intRepr n) = false := pyIsDigit_intRepr_neg n (by omega)
      simp [final_assistant_id, isNumOrStr, pyStrRepr, h1, specNonNegIntValue, hn]

set_option maxRecDepth 10000

/-- Claim C7: on the specification's example event sequence (two
`message.delta` text deltas `"Hel"`, `"lo"` and a `message.completed`
with `message_id` 42), a successful `agent_run` returns aggregated
text `"Hello"`, empty generated query, and resolved identifier 42,
for every supplied parent identifier. -/
theorem C7_event_sequence (prompt : String) (tid : Jv) (parent : Int) :
    agent_run (.ok [("status", Jv.int 200), ("content", Jv.str c7_content)]) prompt tid parent
      = ([⟨tid, parent, prompt, 200⟩], .ok ("Hello", Jv.str "", Jv.int 42)) := by
  simp only [agent_run]
  rw [show resp_status [("status", Jv.int 200), ("content", Jv.str c7_content)] = Jv.int 200
    from rfl, log_api_call_int]
  norm_num
  rfl

/-- Claim C8: `restore_cursor` returns the thread's messages ordered
by message identifier ascending (creation time ascending breaking
ties) and a resumed parent identifier equal to the maximum stored
message identifier, or 0 when the thread has no messages. -/
theorem C8_restore_cursor (rows : List MsgRow)
    (h : ∀ r ∈ rows, 0 ≤ r.message_id.getD 0) :
    (load_messages rows).Perm rows ∧ List.Sorted rowLe (load_messages rows) ∧
      (restore_cursor rows).2 = ((rows.filterMap MsgRow.message_id).max?).getD 0 := by
  have hperm : (load_messages rows).Perm rows := List.perm_insertionSort rowLe rows
  refine ⟨hperm, List.sorted_insertionSort rowLe rows, ?_⟩
  have hfold : (load_messages rows).foldl
      (fun acc r => match r.message_id with | some n => max acc n | none => acc) 0
      = rows.foldl (fun acc r => match r.message_id with | some n => max acc n | none => acc) 0 := by
    refine List.Perm.foldl_eq' hperm ?_ 0
    intro x hx y hy z
    cases x.message_id <;> cases y.message_id <;>
      simp [max_assoc, max_comm, max_left_comm]
  have e1 : (restore_cursor rows).2 = (load_messages rows).foldl
      (fun acc r => match r.message_id with | some n => max acc n | none => acc) 0 := rfl
  rw [e1, hfold, restore_fold_filterMap]
  apply foldl_max_nonneg
  intro x hx
  simp only [List.mem_filterMap] at hx
  obtain ⟨r, hr, hid⟩ := hx
  have h2 := h r hr
  rw [hid] at h2
  simpa using h2

/-- Witness for C8: stored messages with identifiers 4, 1, 2 (in that
storage order) restore to parent identifier 4 with the three messages
replayed in identifier order 1, 2, 4. -/
theorem C8_restore_cursor_witness :
    restore_cursor [⟨some 4, "user", "m4", 30⟩, ⟨some 1, "user", "m1", 10⟩,
        ⟨some 2, "assistant", "m2", 20⟩]
      = ([("user", "m1"), ("assistant", "m2"), ("user", "m4")], 4) ∧
    List.Sorted rowLe (load_messages [⟨some 4, "user", "m4", 30⟩, ⟨some 1, "user", "m1", 10⟩,
        ⟨some 2, "assistant", "m2", 20⟩]) :=
  ⟨rfl, (C8_restore_cursor _ (by decide)).2.1⟩

/-- Claim C9: an event whose kind tag is none of `message.delta`,
`message.completed`, `message.created`, `response.completed` is
ignored — it contributes nothing to the aggregated text, the generated
query, or the resolved identifier, and its presence never makes the
parse fail. -/
theorem C9_unknown_event_ignored (st : String × Jv × Jv) (kvs : List (String × Jv))
    (h : knownKind ((dlookup kvs "event").getD Jv.null) = false) :
    processEvent st (Jv.dict kvs) = .ok st := by
  simp only [processEvent, pyGetD]
  cases het : (dlookup kvs "event").getD Jv.null with
  | str s =>
    rw [het] at h
    simp only [knownKind, Bool.or_eq_false_iff, decide_eq_false_iff_not] at h
    obtain ⟨⟨⟨h1, h2⟩, h3⟩, h4⟩ := h
    simp [h1, h2, h3, h4]
  | null => simp
  | bool b => simp
  | int n => simp
  | list xs => simp
  | dict d => simp

/-- Witness for C9: a concrete `tool.use` event leaves the parse state
untouched. -/
theorem C9_unknown_event_ignored_witness :
    processEvent ("a", Jv.str "b", Jv.int 3) (Jv.dict [("event", Jv.str "tool.use")])
      = .ok ("a", Jv.str "b", Jv.int 3) :=
  C9_unknown_event_ignored _ _ rfl

/-- Claim C10: a gateway response dict lacking a `"status"` key is
treated as status -1 by both `create_thread` and `agent_run` (the call
fails and is audited with the sentinel), and `log_api_call` coerces
every falsy status (None or 0, besides the missing-key default) to -1
before storing. -/
theorem C10_falsy_status_sentinel :
    (∀ (tid : Jv) (pm : Int) (pr : String),
        log_api_call tid pm pr Jv.null = .ok ⟨tid, pm, pr, -1⟩ ∧
        log_api_call tid pm pr (Jv.int 0) = .ok ⟨tid, pm, pr, -1⟩) ∧
    (∀ (resp : List (String × Jv)) (pr : String) (tid : Jv) (pm : Int),
        dlookup resp "status" = none →
        agent_run (.ok resp) pr tid pm = ([⟨tid, pm, pr, -1⟩], .ok ("", Jv.str "", Jv.int pm))) ∧
    (∀ resp : List (String × Jv),
        dlookup resp "status" = none →
        create_thread (.ok resp)
          = ([⟨parse_thread_id resp, 0, "CREATE_THREAD", -1⟩], .ok Jv.null)) := by
  refine ⟨fun tid pm pr => ⟨?_, ?_⟩, fun resp pr tid pm h => ?_, fun resp h => ?_⟩
  · by_cases hp : pm = 0 <;> simp [log_api_call, pyOrJ, pyTruthy, pyInt, hp]
  · have h2 := log_api_call_int tid pm pr 0
    simpa using h2
  · have hn : resp_status resp = Jv.int (-1) := by simp [resp_status, h]
    simp only [agent_run, hn, log_api_call_int]
    norm_num
    simp [pyEqInt]
  · have hn : resp_status resp = Jv.int (-1) := by simp [resp_status, h]
    simp only [create_thread, hn, log_api_call_int]
    norm_num
    simp [pyEqInt]

/-- Witness for C10: a concrete empty response dict is audited with
status -1 by both operations, and `log_api_call` coerces None to -1. -/
theorem C10_falsy_status_sentinel_witness :
    log_api_call (Jv.str "T") 3 "p" Jv.null = .ok ⟨Jv.str "T", 3, "p", -1⟩ ∧
    agent_run (.ok []) "p" (Jv.str "T") 3
      = ([⟨Jv.str "T", 3, "p", -1⟩], .ok ("", Jv.str "", Jv.int 3)) ∧
    create_thread (.ok []) = ([⟨Jv.null, 0, "CREATE_THREAD", -1⟩], .ok Jv.null) :=
  ⟨(C10_falsy_status_sentinel.1 (Jv.str "T") 3 "p").1,
   C10_falsy_status_sentinel.2.1 [] "p" (Jv.str "T") 3 rfl,
   C10_falsy_status_sentinel.2.2 [] rfl⟩
